import Mathlib

/-
Shallow embedding of src/main.py, a Telegram media-download bot.

The embedding models the pure logic of the source: URL classification
(is_spotify_url / is_pinterest_url / is_youtube_url, backed by a model of
urllib.parse netloc extraction), the message dispatcher (handle_message),
the Pinterest scrape downloader (download_pinterest), the YouTube
single-item downloader (download_youtube), the Spotify batch pipeline
(process_spotify) with its workspace, zip packaging, 48 MB size gate and
cleanup, and the inline-button callback payload round trip.

External collaborators (Telegram transport, yt_dlp, spotdl, requests) are
modelled as environments recording, for one request, what each collaborator
call would return or whether it would raise.  Outbound sends are recorded
as events; an environment field says which outbound send (by order of
occurrence) raises, so that exception exit paths of the source are covered.

All string operations are re-implemented structurally on `List Char` so
that every definition reduces in the kernel (Python semantics: str.strip,
str.startswith, substring containment via `in`, str.lower, slicing,
str.split with maxsplit, decimal rendering of int).
-/

/-- Python `needle in haystack` prefix worker: is the first list a prefix of
the second. -/
def isPrefixL : List Char → List Char → Bool
  | [], _ => true
  | _ :: _, [] => false
  | a :: as, b :: bs => a == b && isPrefixL as bs

/-- Python substring containment on char lists (`needle in haystack`). -/
def listInfix (n : List Char) : List Char → Bool
  | [] => n.isEmpty
  | h :: t => isPrefixL n (h :: t) || listInfix n t

/-- Python `needle in haystack` on strings. -/
def strContains (hay need : String) : Bool := listInfix need.data hay.data

/-- Python `s.startswith(pre)`. -/
def py_startswith (pre s : String) : Bool := isPrefixL pre.data s.data

/-- Python `s.strip()` (ASCII whitespace on both ends). -/
def pyStrip (s : String) : String :=
  ⟨((s.data.dropWhile Char.isWhitespace).reverse.dropWhile Char.isWhitespace).reverse⟩

/-- Python `s.lower()` (ASCII). -/
def lowerStr (s : String) : String := ⟨s.data.map Char.toLower⟩

/-- Python slicing `s[:n]`. -/
def takeChars (n : Nat) (s : String) : String := ⟨s.data.take n⟩

/-- Python `s.replace(a, b)` for single-character pattern and replacement
(main.py line 140 uses `name.replace(' ', '_')`). -/
def replaceChar (a b : Char) (s : String) : String :=
  ⟨s.data.map (fun c => if c == a then b else c)⟩

/-- Little-endian base-10 digits of a natural number, with explicit fuel so
the definition is structural and kernel-reducible.  Fuel `n` suffices for
input `n` because the argument shrinks under division by 10. -/
def natDigitsAux : Nat → Nat → List Nat
  | 0, _ => []
  | _ + 1, 0 => []
  | fuel + 1, n + 1 => ((n + 1) % 10) :: natDigitsAux fuel ((n + 1) / 10)

/-- Little-endian base-10 digits of a natural number. -/
def natDigits (n : Nat) : List Nat := natDigitsAux n n

/-- Reconstruct a natural number from little-endian base-10 digits
(left inverse of `natDigits`). -/
def ofDigits10 : List Nat → Nat
  | [] => 0
  | d :: ds => d + 10 * ofDigits10 ds

/-- One decimal digit as a character. -/
def digitChar : Nat → Char
  | 0 => '0'
  | 1 => '1'
  | 2 => '2'
  | 3 => '3'
  | 4 => '4'
  | 5 => '5'
  | 6 => '6'
  | 7 => '7'
  | 8 => '8'
  | 9 => '9'
  | _ => '*'

/-- Python `str(n)` for a natural number. -/
def natRepr (n : Nat) : String :=
  if n = 0 then "0" else ⟨((natDigits n).map digitChar).reverse⟩

/-- Python `str(i)` for an int (Python `hash` values may be negative). -/
def intRepr (i : Int) : String :=
  if i < 0 then "-" ++ natRepr i.natAbs else natRepr i.toNat

/-- Characters allowed in a URL scheme by urllib.parse. -/
def isSchemeChar (c : Char) : Bool := c.isAlphanum || c == '+' || c == '-' || c == '.'

/-- urllib.parse scheme splitting: if the text up to the first colon is a
valid scheme, drop it together with the colon; otherwise keep the text. -/
def dropSchemeColon (cs : List Char) : List Char :=
  let pre := cs.takeWhile (fun c => c != ':')
  if pre.length < cs.length ∧ pre ≠ [] ∧ (pre.headD ' ').isAlpha ∧ pre.all isSchemeChar then
    cs.drop (pre.length + 1)
  else cs

/-- urllib.parse `urlparse(url).netloc`: after the scheme, an authority is
present only behind `//` and extends to the first `/`, `?` or `#`. -/
def netloc (url : String) : String :=
  match dropSchemeColon url.data with
  | '/' :: '/' :: r => ⟨r.takeWhile (fun c => c != '/' && c != '?' && c != '#')⟩
  | _ => ""

/-- main.py lines 53-54: `"spotify.com" in urlparse(url).netloc` —
note: no lowercasing, unlike the other two classifiers. -/
def is_spotify_url (url : String) : Bool := strContains (netloc url) "spotify.com"

/-- main.py lines 56-58: lowercased netloc matched against `pinterest.`
and `pin.it`. -/
def is_pinterest_url (url : String) : Bool :=
  strContains (lowerStr (netloc url)) "pinterest." || strContains (lowerStr (netloc url)) "pin.it"

/-- main.py lines 60-62: lowercased netloc matched against `youtube.com`
and `youtu.be`. -/
def is_youtube_url (url : String) : Bool :=
  strContains (lowerStr (netloc url)) "youtube.com" || strContains (lowerStr (netloc url)) "youtu.be"

/-- Outbound sends made through the Telegram transport. -/
inductive Ev where
  | text (s : String)
  | photo (f : String)
  | video (f : String)
  | document (entries : List String) (caption : String)
  deriving DecidableEq

/-- What handle_message dispatches beyond its own immediate sends:
nothing, a fire-and-forget Spotify task, or a YouTube format keyboard
carrying the two callback payloads. -/
inductive Dispatch where
  | noDispatch
  | spotifyTask (url : String)
  | ytKeyboard (cbAudio cbVideo : String)
  deriving DecidableEq

/-- main.py lines 221-222: the inline-button payload `f"yt|{fmt}|{url}"`. -/
def mkCallback (fmt url : String) : String := "yt|" ++ fmt ++ "|" ++ url

/-- First occurrence split: `breakFirst c s = some (pre, post)` when
`s = pre ++ c :: post` with `c` not in `pre`; `none` when `c` is absent. -/
def breakFirst (c : Char) : List Char → Option (List Char × List Char)
  | [] => none
  | x :: xs =>
    if x = c then some ([], xs)
    else (breakFirst c xs).map (fun p => (x :: p.1, p.2))

/-- Python `data.split("|", 2)` (main.py line 239), unrolled for the
two-splits-at-most case. -/
def pySplit2 (s : String) : List String :=
  match breakFirst '|' s.data with
  | none => [s]
  | some (p1, r1) =>
    match breakFirst '|' r1 with
    | none => [⟨p1⟩, ⟨r1⟩]
    | some (p2, r2) => [⟨p1⟩, ⟨p2⟩, ⟨r2⟩]

/-- main.py lines 236-239: button_callback ignores payloads without the
`yt|` marker, then unpacks `_, fmt, url = data.split("|", 2)`; an unpack
with fewer than three parts (impossible for payloads built by
handle_message) is modelled as `none`. -/
def button_callback_parse (data : String) : Option (String × String) :=
  if isPrefixL "yt|".data data.data then
    match pySplit2 data with
    | [_, fmt, url] => some (fmt, url)
    | _ => none
  else none

/-- Python `pathlib.Path(p).suffix` for the flat file names this program
creates: the final extension including the dot, or the empty string. -/
def pySuffix (s : String) : String :=
  let r := s.data.reverse.takeWhile (fun c => c != '.')
  if r.length = s.data.length then "" else ⟨'.' :: r.reverse⟩

/-- The extension of a path, without the dot. -/
def extOf (s : String) : String := ⟨(s.data.reverse.takeWhile (fun c => c != '.')).reverse⟩

/-- Python `filename.rsplit(".", 1)[0]`: everything before the last dot,
or the whole string when there is no dot (main.py line 87). -/
def rsplitHead (s : String) : String :=
  match s.data.reverse.dropWhile (fun c => c != '.') with
  | [] => s
  | _ :: rest => ⟨rest.reverse⟩

/-- main.py line 106/117: Pinterest media file name
`DOWNLOAD_DIR / f"pin_{hash(url)}{ext}"`.  The Python `hash` of the URL is
an input (it is process-seeded), passed in as an integer. -/
def pinFileName (h : Int) (ext : String) : String := "downloads/pin_" ++ intRepr h ++ ext

/-- The `src` attributes of the page's `img` and `video` tags in document
order (`none` for a tag without the attribute), as BeautifulSoup would see
them after parsing the fetched page. -/
structure PinPage where
  imgSrcs : List (Option String)
  vidSrcs : List (Option String)
  deriving DecidableEq

/-- Collaborator outcomes for one Pinterest request: the page fetch/parse
either raises (`none`) or yields a parsed page; each secondary media fetch
either succeeds or raises. -/
structure PinEnv where
  urlHash : Int
  page : Option PinPage
  imgFetchOk : Bool
  vidFetchOk : Bool
  deriving DecidableEq

/-- main.py line 101: the image heuristic
`lambda s: s and any(x in s for x in [".jpg", ".png", "pinimg.com"])`
applied to an `img` tag's optional `src`. -/
def pinImgPred : Option String → Bool
  | some s => !(s == "") && (strContains s ".jpg" || strContains s ".png" || strContains s "pinimg.com")
  | none => false

/-- main.py lines 94-122, the body of the try block of download_pinterest:
returns the produced media file list (`ok none` models Python `None` for
the zero-media case) or raises (`error`). -/
def pinterestBody (env : PinEnv) : Except Unit (Option (List String)) :=
  match env.page with
  | none => Except.error ()
  | some page =>
    match page.imgSrcs.find? pinImgPred with
    | some _ =>
      if env.imgFetchOk then
        match page.vidSrcs.find? (fun o => o.isSome) with
        | some _ =>
          if env.vidFetchOk then
            Except.ok (some [pinFileName env.urlHash ".jpg", pinFileName env.urlHash ".mp4"])
          else Except.error ()
        | none => Except.ok (some [pinFileName env.urlHash ".jpg"])
      else Except.error ()
    | none =>
      match page.vidSrcs.find? (fun o => o.isSome) with
      | some _ =>
        if env.vidFetchOk then Except.ok (some [pinFileName env.urlHash ".mp4"])
        else Except.error ()
      | none => Except.ok none

/-- main.py lines 93-125: download_pinterest wraps its whole body in
try/except and converts any exception into the `None` result. -/
def download_pinterest (env : PinEnv) : Option (List String) :=
  match pinterestBody env with
  | Except.ok r => r
  | Except.error _ => none

/-- main.py lines 206-216: the Pinterest branch of handle_message after the
"Pinterest detected" reply: send each file as video or photo by suffix, or
report the no-media text when download_pinterest returned a falsy value. -/
def pinterest_branch_events (env : PinEnv) : List Ev :=
  match download_pinterest env with
  | some (f :: fs) =>
    (f :: fs).map (fun g => if lowerStr (pySuffix g) == ".mp4" then Ev.video g else Ev.photo g)
  | some [] => [Ev.text "Could not download Pinterest media (page changed?)"]
  | none => [Ev.text "Could not download Pinterest media (page changed?)"]

/-- The branch handle_message takes for an inbound text, in the order the
source tests the classifiers (main.py lines 193-229). -/
inductive Route where
  | ignored
  | spotify
  | pinterest
  | youtube
  | unsupported
  deriving DecidableEq

/-- main.py lines 193-229, the classification part of handle_message:
strip the text, silently ignore it unless it starts with `http://` or
`https://`, then first classifier match wins. -/
def route (text : String) : Route :=
  if !(py_startswith "http://" (pyStrip text) || py_startswith "https://" (pyStrip text)) then
    Route.ignored
  else if is_spotify_url (pyStrip text) then Route.spotify
  else if is_pinterest_url (pyStrip text) then Route.pinterest
  else if is_youtube_url (pyStrip text) then Route.youtube
  else Route.unsupported

/-- main.py lines 193-229: the sends handle_message makes itself, plus what
it dispatches.  The Pinterest branch runs inline, so its events are
included; transport sends in this handler are modelled as succeeding. -/
def handle_message (text : String) (penv : PinEnv) : List Ev × Dispatch :=
  match route text with
  | Route.ignored => ([], Dispatch.noDispatch)
  | Route.spotify =>
    ([Ev.text "Spotify detected → starting download..."], Dispatch.spotifyTask (pyStrip text))
  | Route.pinterest =>
    (Ev.text "Pinterest detected → fetching media..." :: pinterest_branch_events penv,
      Dispatch.noDispatch)
  | Route.youtube =>
    ([Ev.text "YouTube detected → choose format:"],
      Dispatch.ytKeyboard (mkCallback "mp3" (pyStrip text)) (mkCallback "mp4" (pyStrip text)))
  | Route.unsupported =>
    ([Ev.text "Only Spotify, Pinterest, YouTube links supported."], Dispatch.noDispatch)

/-- What yt_dlp's extract_info resolves for the URL: a title and original
container extension, used by prepare_filename. -/
structure YtInfo where
  title : String
  ext : String

/-- Collaborator outcome for one YouTube request: extraction (and, for
audio, transcoding) either succeeds with the resolved info or raises with
an error message. -/
structure YtEnv where
  extract : Except String YtInfo

/-- main.py line 66/85: `outtmpl` is `downloads/%(title)s.%(ext)s`, so
prepare_filename yields this path. -/
def prepare_filename (info : YtInfo) : String := "downloads/" ++ info.title ++ "." ++ info.ext

/-- main.py lines 64-91: download_youtube returns one artifact path on
success (for mp3, the prepared filename with its last extension replaced by
`.mp3`), and on any exception replies with the truncated error text and
returns `None`. -/
def download_youtube (env : YtEnv) (format_type : String) : Option String × List Ev :=
  match env.extract with
  | Except.ok info =>
    if format_type == "mp3" then (some (rsplitHead (prepare_filename info) ++ ".mp3"), [])
    else (some (prepare_filename info), [])
  | Except.error e => (none, [Ev.text ("YouTube download failed: " ++ takeChars 200 e)])

/-- Outcome of `spotdl_client.download_song` for one track: a file with the
given base name was produced and exists, or the attempt failed (raised,
returned a falsy result, or the file is missing) — main.py lines 143-150. -/
inductive DlOutcome where
  | ok (fname : String)
  | fail
  deriving DecidableEq

/-- One resolved track: its artist (used for the zip name) and its download
outcome. -/
structure Song where
  artist : String
  dl : DlOutcome
  deriving DecidableEq

/-- Base names of the tracks that download successfully, in order. -/
def successNames (songs : List Song) : List String :=
  songs.filterMap (fun s =>
    match s.dl with
    | DlOutcome.ok f => some f
    | DlOutcome.fail => none)

/-- Number of tracks whose download fails. -/
def failCount (songs : List Song) : Nat :=
  (songs.filter (fun s =>
    match s.dl with
    | DlOutcome.fail => true
    | DlOutcome.ok _ => false)).length

/-- main.py line 148: `song_file.rename(temp_dir / song_file.name)` — moving
a file into the workspace; a same-named file already there is overwritten,
so the directory keeps one file per distinct name. -/
def addFile (acc : List String) (f : String) : List String :=
  if f ∈ acc then acc else acc ++ [f]

/-- The effect of one loop iteration of main.py lines 142-150 on the
workspace contents. -/
def stepFile (acc : List String) (s : Song) : List String :=
  match s.dl with
  | DlOutcome.ok f => addFile acc f
  | DlOutcome.fail => acc

/-- Workspace contents after the download loop (main.py lines 142-150). -/
def tempFilesOf (songs : List Song) : List String := songs.foldl stepFile []

/-- The download loop with its attempt counter: every descriptor is
attempted exactly once, whatever the outcomes (main.py lines 142-150:
the per-iteration try/except swallows failures and continues). -/
def batchRun (songs : List Song) : Nat × List String :=
  songs.foldl (fun st s => (st.1 + 1, stepFile st.2 s)) (0, [])

/-- Fold `addFile` over a list of names (used to relate the loop to the
list of successful names). -/
def insertAll (acc : List String) (l : List String) : List String := l.foldl addFile acc

/-- main.py line 135: `name = songs[0].artist if len(songs) == 1 else "Playlist"`. -/
def zipBaseName (songs : List Song) : String :=
  if songs.length = 1 then (songs.headD ⟨"", DlOutcome.fail⟩).artist else "Playlist"

/-- main.py line 140: the zip artifact path
`DOWNLOAD_DIR / f"{name.replace(' ', '_')}.zip"`. -/
def zipFileName (songs : List Song) : String :=
  "downloads/" ++ replaceChar ' ' '_' (zipBaseName songs) ++ ".zip"

/-- main.py line 138: the workspace path `DOWNLOAD_DIR / f"temp_{hash(url)}"`;
the Python `hash` of the URL is passed in as an integer. -/
def tempDirName (h : Int) : String := "downloads/temp_" ++ intRepr h

/-- The byte bound of the size gate: `st_size / (1024*1024) < 48` on exact
binary floating point equals `bytes < 48 * 1024 * 1024` (main.py
lines 162-163). -/
def MB48 : Nat := 48 * 1024 * 1024

/-- Round `num / den` to the nearest integer, ties to even — the rounding
used when Python formats an exactly-represented float with `:.1f`. -/
def roundHalfEven (num den : Nat) : Nat :=
  let q := num / den
  let r := num % den
  if 2 * r < den then q else if den < 2 * r then q + 1 else if q % 2 = 0 then q else q + 1

/-- The archive size in tenths of a MB, rounded as `f"{size:.1f}"` does. -/
def sizeTenths (bytes : Nat) : Nat := roundHalfEven (bytes * 10) (1024 * 1024)

/-- Python `f"{file_size_mb:.1f}"` for an archive of the given byte size. -/
def fmt1MB (bytes : Nat) : String :=
  natRepr (sizeTenths bytes / 10) ++ "." ++ natRepr (sizeTenths bytes % 10)

/-- main.py lines 169-172: the oversize rejection text, carrying the
measured size rounded to one decimal place. -/
def oversizeMsg (bytes : Nat) : String :=
  "ZIP is too big (" ++ fmt1MB bytes ++
    " MB). Telegram limit is ~50 MB.\nTry a smaller playlist or ask for individual songs."

/-- Collaborator outcomes for one Spotify request: the resolved tracks with
their download outcomes (resolution succeeded; an empty list models zero
resolved tracks), the byte size the produced zip would have, which outbound
send (0-based, in order of occurrence inside process_spotify) raises, and
the exception text seen by the outer handler when one does. -/
structure SpotifyEnv where
  urlHash : Int
  songs : List Song
  zipBytes : Nat
  failSendAt : Option Nat
  exnMsg : String
  deriving DecidableEq

/-- Final outcome of one process_spotify run: the outbound sends made, what
remains on transient storage afterwards (the workspace directory, the files
inside it, the zip artifact), and the entries of the zip if one was ever
written. -/
structure SpotResult where
  events : List Ev
  tempDirRemains : Bool
  tempFilesRemain : List String
  zipRemains : Bool
  zipProduced : Option (List String)
  deriving DecidableEq

/-- Does the i-th outbound send inside process_spotify succeed. -/
def sendOk (env : SpotifyEnv) (i : Nat) : Bool :=
  match env.failSendAt with
  | none => true
  | some j => j != i

/-- main.py lines 178-179: the outer except handler replies with the
truncated exception text; if that reply itself raises, the task ends with
no further event. -/
def spotifyErrEvents (env : SpotifyEnv) (i : Nat) : List Ev :=
  if sendOk env i then [Ev.text ("Spotify error: " ++ takeChars 300 env.exnMsg)] else []

/-- main.py line 136: the resolved-count progress reply. -/
def foundEv (env : SpotifyEnv) : Ev :=
  Ev.text ("Found " ++ natRepr env.songs.length ++ " track(s). Downloading...")

/-- main.py line 166: the document caption. -/
def spotCaption (env : SpotifyEnv) : String :=
  "Spotify download: " ++ zipBaseName env.songs ++ " (" ++ natRepr env.songs.length ++ " tracks)"

/-- main.py lines 127-179: the whole Spotify pipeline for one request.
Every exit path of the source is represented: the empty-resolution reply,
the empty-workspace failure, the size gate with document send or oversize
text, the trailing cleanup (lines 174-176), and the outer except handler —
which, crucially, is reached when an outbound send raises and then skips
whatever cleanup had not yet run. -/
def process_spotify (env : SpotifyEnv) : SpotResult :=
  if env.songs.isEmpty then
    if sendOk env 0 then ⟨[Ev.text "No tracks found on Spotify."], false, [], false, none⟩
    else ⟨spotifyErrEvents env 1, false, [], false, none⟩
  else if sendOk env 0 then
    if (tempFilesOf env.songs).isEmpty then
      if sendOk env 1 then
        ⟨[foundEv env, Ev.text "Download failed — no files saved."], false, [], false, none⟩
      else ⟨foundEv env :: spotifyErrEvents env 2, true, [], false, none⟩
    else if env.zipBytes < MB48 then
      if sendOk env 1 then
        ⟨[foundEv env, Ev.document (tempFilesOf env.songs) (spotCaption env)],
          false, [], false, some (tempFilesOf env.songs)⟩
      else ⟨foundEv env :: spotifyErrEvents env 2,
        true, tempFilesOf env.songs, true, some (tempFilesOf env.songs)⟩
    else
      if sendOk env 1 then
        ⟨[foundEv env, Ev.text (oversizeMsg env.zipBytes)],
          false, [], false, some (tempFilesOf env.songs)⟩
      else ⟨foundEv env :: spotifyErrEvents env 2,
        true, tempFilesOf env.songs, true, some (tempFilesOf env.songs)⟩
  else ⟨spotifyErrEvents env 1, false, [], false, none⟩

/-
Helper lemmas.
-/

theorem data_append (a b : String) : (a ++ b).data = a.data ++ b.data := by
  cases a
  cases b
  rfl

theorem strData_inj {a b : String} (h : a.data = b.data) : a = b :=
  congrArg String.mk h

theorem ofDigits10_natDigitsAux :
    ∀ fuel n, n ≤ fuel → ofDigits10 (natDigitsAux fuel n) = n := by
  intro fuel
  induction fuel with
  | zero =>
    intro n hn
    interval_cases n
    rfl
  | succ f ih =>
    intro n hn
    cases n with
    | zero => rfl
    | succ m =>
      have hdiv : (m + 1) / 10 ≤ f := by omega
      simp only [natDigitsAux, ofDigits10, ih _ hdiv]
      omega

theorem natDigits_inj {a b : Nat} (h : natDigits a = natDigits b) : a = b := by
  have ha : ofDigits10 (natDigits a) = a := ofDigits10_natDigitsAux a a le_rfl
  have hb : ofDigits10 (natDigits b) = b := ofDigits10_natDigitsAux b b le_rfl
  rw [h] at ha
  rw [hb] at ha
  exact ha.symm

theorem natDigitsAux_lt_ten :
    ∀ fuel n, ∀ d ∈ natDigitsAux fuel n, d < 10 := by
  intro fuel
  induction fuel with
  | zero => intro n d hd; simp [natDigitsAux] at hd
  | succ f ih =>
    intro n d hd
    cases n with
    | zero => simp [natDigitsAux] at hd
    | succ m =>
      simp only [natDigitsAux, List.mem_cons] at hd
      rcases hd with h | h
      · omega
      · exact ih _ _ h

theorem digitChar_inj_lt :
    ∀ a, a < 10 → ∀ b, b < 10 → digitChar a = digitChar b → a = b := by decide

theorem digitChar_ne_dash : ∀ d, digitChar d ≠ '-' := by
  intro d
  unfold digitChar
  split <;> decide

theorem mapDigitChar_inj :
    ∀ l1 l2 : List Nat, (∀ d ∈ l1, d < 10) → (∀ d ∈ l2, d < 10) →
      l1.map digitChar = l2.map digitChar → l1 = l2 := by
  intro l1
  induction l1 with
  | nil =>
    intro l2 _ _ h
    cases l2 with
    | nil => rfl
    | cons b bs => simp at h
  | cons a as ih =>
    intro l2 h1 h2 h
    cases l2 with
    | nil => simp at h
    | cons b bs =>
      simp only [List.map_cons, List.cons.injEq] at h
      have ha : a < 10 := h1 a (List.mem_cons_self a as)
      have hb : b < 10 := h2 b (List.mem_cons_self b bs)
      have hab : a = b := digitChar_inj_lt a ha b hb h.1
      have hrest : as = bs :=
        ih bs (fun d hd => h1 d (List.mem_cons_of_mem a hd))
          (fun d hd => h2 d (List.mem_cons_of_mem b hd)) h.2
      rw [hab, hrest]

theorem natRepr_zero_aux {b : Nat} (h : ("0" : String) = ⟨((natDigits b).map digitChar).reverse⟩) :
    b = 0 := by
  have hd : ['0'] = ((natDigits b).map digitChar).reverse := congrArg String.data h
  have hrev : (natDigits b).map digitChar = ['0'] := by
    have h2 := congrArg List.reverse hd
    simpa using h2.symm
  have hdig : natDigits b = [0] :=
    mapDigitChar_inj _ _ (natDigitsAux_lt_ten b b) (by decide) (by rw [hrev]; decide)
  have h4 : ofDigits10 (natDigits b) = b := ofDigits10_natDigitsAux b b le_rfl
  rw [hdig] at h4
  simp [ofDigits10] at h4
  omega

theorem natRepr_inj {a b : Nat} (h : natRepr a = natRepr b) : a = b := by
  unfold natRepr at h
  by_cases ha : a = 0 <;> by_cases hb : b = 0
  · omega
  · rw [if_pos ha, if_neg hb] at h
    rw [ha, natRepr_zero_aux h]
  · rw [if_neg ha, if_pos hb] at h
    rw [hb, natRepr_zero_aux h.symm]
  · rw [if_neg ha, if_neg hb] at h
    have hd : ((natDigits a).map digitChar).reverse = ((natDigits b).map digitChar).reverse :=
      congrArg String.data h
    have hm : (natDigits a).map digitChar = (natDigits b).map digitChar := by
      have h2 := congrArg List.reverse hd
      simpa using h2
    exact natDigits_inj
      (mapDigitChar_inj _ _ (natDigitsAux_lt_ten a a) (natDigitsAux_lt_ten b b) hm)

theorem natRepr_no_dash (n : Nat) : '-' ∉ (natRepr n).data := by
  unfold natRepr
  by_cases h : n = 0
  · rw [if_pos h]
    decide
  · rw [if_neg h]
    intro hmem
    have hmem' : '-' ∈ (natDigits n).map digitChar := by
      have : '-' ∈ ((natDigits n).map digitChar).reverse := hmem
      simpa using this
    rcases List.mem_map.mp hmem' with ⟨d, _, hd⟩
    exact digitChar_ne_dash d hd

theorem intRepr_inj {i j : Int} (h : intRepr i = intRepr j) : i = j := by
  unfold intRepr at h
  by_cases hi : i < 0 <;> by_cases hj : j < 0
  · rw [if_pos hi, if_pos hj] at h
    have hd := congrArg String.data h
    rw [data_append, data_append] at hd
    have hd' : '-' :: (natRepr i.natAbs).data = '-' :: (natRepr j.natAbs).data := hd
    have habs : i.natAbs = j.natAbs :=
      natRepr_inj (strData_inj (List.cons.injEq _ _ _ _ ▸ hd').2)
    omega
  · exfalso
    rw [if_pos hi, if_neg hj] at h
    have hd := congrArg String.data h
    rw [data_append] at hd
    have hd' : '-' :: (natRepr i.natAbs).data = (natRepr j.toNat).data := hd
    exact natRepr_no_dash j.toNat (hd' ▸ List.mem_cons_self '-' _)
  · exfalso
    rw [if_neg hi, if_pos hj] at h
    have hd := congrArg String.data h
    rw [data_append] at hd
    have hd' : '-' :: (natRepr j.natAbs).data = (natRepr i.toNat).data := hd.symm
    exact natRepr_no_dash i.toNat (hd' ▸ List.mem_cons_self '-' _)
  · rw [if_neg hi, if_neg hj] at h
    have := natRepr_inj h
    omega

theorem tempDirName_inj {h1 h2 : Int} (h : tempDirName h1 = tempDirName h2) : h1 = h2 := by
  unfold tempDirName at h
  have hd := congrArg String.data h
  rw [data_append, data_append] at hd
  exact intRepr_inj (strData_inj (List.append_cancel_left hd))

theorem zipFileName_playlist {s : List Song} (h : 2 ≤ s.length) :
    zipFileName s = "downloads/" ++ replaceChar ' ' '_' "Playlist" ++ ".zip" := by
  unfold zipFileName zipBaseName
  rw [if_neg (by omega)]

theorem breakFirst_notMem {c : Char} :
    ∀ l : List Char, c ∉ l → breakFirst c l = none := by
  intro l
  induction l with
  | nil => intro _; rfl
  | cons x xs ih =>
    intro hmem
    have hx : ¬x = c := fun he => hmem (he ▸ List.mem_cons_self x xs)
    have hxs : c ∉ xs := fun hm => hmem (List.mem_cons_of_mem x hm)
    simp [breakFirst, hx, ih hxs]

theorem breakFirst_append {c : Char} :
    ∀ l1 l2 : List Char, c ∉ l1 → breakFirst c (l1 ++ c :: l2) = some (l1, l2) := by
  intro l1
  induction l1 with
  | nil => intro l2 _; simp [breakFirst]
  | cons x xs ih =>
    intro l2 hmem
    have hx : ¬x = c := fun he => hmem (he ▸ List.mem_cons_self x xs)
    have hxs : c ∉ xs := fun hm => hmem (List.mem_cons_of_mem x hm)
    simp [breakFirst, hx, ih l2 hxs]

theorem extOf_append_mp3 (s : String) : extOf (s ++ ".mp3") = "mp3" := by
  have hd : (s ++ ".mp3").data = s.data ++ ('.' :: 'm' :: 'p' :: '3' :: []) := data_append s ".mp3"
  unfold extOf
  rw [hd, List.reverse_append]
  rfl

theorem successNames_cons_ok (a : String) (d : DlOutcome) (rest : List Song)
    (h : d = DlOutcome.ok a) (art : String) :
    successNames (⟨art, d⟩ :: rest) = a :: successNames rest := by
  simp [successNames, List.filterMap_cons, h]

theorem foldl_stepFile_eq :
    ∀ (songs : List Song) (acc : List String),
      songs.foldl stepFile acc = insertAll acc (successNames songs) := by
  intro songs
  induction songs with
  | nil => intro acc; rfl
  | cons s rest ih =>
    intro acc
    cases hdl : s.dl with
    | ok f =>
      have h1 : stepFile acc s = addFile acc f := by simp [stepFile, hdl]
      have h2 : successNames (s :: rest) = f :: successNames rest := by
        simp [successNames, List.filterMap_cons, hdl]
      rw [List.foldl_cons, h1, h2, ih]
      rfl
    | fail =>
      have h1 : stepFile acc s = acc := by simp [stepFile, hdl]
      have h2 : successNames (s :: rest) = successNames rest := by
        simp [successNames, List.filterMap_cons, hdl]
      rw [List.foldl_cons, h1, h2, ih]

theorem insertAll_of_nodup :
    ∀ (l : List String) (acc : List String), l.Nodup → (∀ f ∈ l, f ∉ acc) →
      insertAll acc l = acc ++ l := by
  intro l
  induction l with
  | nil => intro acc _ _; simp [insertAll]
  | cons f fs ih =>
    intro acc hnd hdisj
    have hf : f ∉ acc := hdisj f (List.mem_cons_self f fs)
    have h1 : insertAll acc (f :: fs) = insertAll (acc ++ [f]) fs := by
      simp [insertAll, addFile, hf]
    rw [h1, ih (acc ++ [f]) (List.Nodup.of_cons hnd)]
    · simp
    · intro g hg
      simp only [List.mem_append, List.mem_singleton]
      rintro (hga | hgf)
      · exact hdisj g (List.mem_cons_of_mem f hg) hga
      · rw [hgf] at hg
        exact (List.nodup_cons.mp hnd).1 hg

theorem tempFilesOf_eq_of_nodup {songs : List Song} (h : (successNames songs).Nodup) :
    tempFilesOf songs = successNames songs := by
  rw [tempFilesOf, foldl_stepFile_eq songs [], insertAll_of_nodup _ [] h (by simp)]
  simp

theorem successNames_length :
    ∀ songs : List Song, (successNames songs).length + failCount songs = songs.length := by
  intro songs
  induction songs with
  | nil => rfl
  | cons s rest ih =>
    cases hdl : s.dl with
    | ok f =>
      simp only [successNames, failCount, List.filterMap_cons, List.filter_cons, hdl] at ih ⊢
      simp only [List.length_cons]
      simp at ih ⊢
      omega
    | fail =>
      simp only [successNames, failCount, List.filterMap_cons, List.filter_cons, hdl] at ih ⊢
      simp only [List.length_cons]
      simp at ih ⊢
      omega

theorem batchRun_fst_aux :
    ∀ (songs : List Song) (k : Nat) (acc : List String),
      (songs.foldl (fun st s => (st.1 + 1, stepFile st.2 s)) (k, acc)).1 = k + songs.length := by
  intro songs
  induction songs with
  | nil => intro k acc; simp
  | cons s rest ih =>
    intro k acc
    rw [List.foldl_cons]
    rw [ih (k + 1) (stepFile acc s)]
    simp only [List.length_cons]
    omega

theorem batchRun_snd_aux :
    ∀ (songs : List Song) (k : Nat) (acc : List String),
      (songs.foldl (fun st s => (st.1 + 1, stepFile st.2 s)) (k, acc)).2 =
        songs.foldl stepFile acc := by
  intro songs
  induction songs with
  | nil => intro k acc; rfl
  | cons s rest ih =>
    intro k acc
    rw [List.foldl_cons, List.foldl_cons, ih (k + 1) (stepFile acc s)]

theorem sendOk_of_none {env : SpotifyEnv} (h : env.failSendAt = none) (i : Nat) :
    sendOk env i = true := by
  unfold sendOk
  rw [h]

theorem isEmpty_false_of_ne_nil {songs : List Song} (h : songs ≠ []) :
    songs.isEmpty = false := by
  cases songs with
  | nil => exact absurd rfl h
  | cons s rest => rfl

theorem process_spotify_normal (env : SpotifyEnv) (hs : env.failSendAt = none)
    (hne : env.songs ≠ []) :
    process_spotify env =
      if (tempFilesOf env.songs).isEmpty then
        ⟨[foundEv env, Ev.text "Download failed — no files saved."], false, [], false, none⟩
      else if env.zipBytes < MB48 then
        ⟨[foundEv env, Ev.document (tempFilesOf env.songs) (spotCaption env)],
          false, [], false, some (tempFilesOf env.songs)⟩
      else
        ⟨[foundEv env, Ev.text (oversizeMsg env.zipBytes)],
          false, [], false, some (tempFilesOf env.songs)⟩ := by
  unfold process_spotify
  rw [isEmpty_false_of_ne_nil hne, sendOk_of_none hs 0, sendOk_of_none hs 1]
  simp

/-
Claim theorems.
-/

/-- C1 (code bug evidence): a Spotify request that resolves to one track,
downloads it successfully, and then has its reply_document send raise, ends
with the error reported (the request is Failed) while the workspace
directory, the file inside it and the zip artifact all remain on transient
storage — the cleanup at main.py lines 174-176 is skipped because the
exception jumps to the except handler at line 178, which only sends an
error text.  This contradicts the claim that every transient file and
directory is deleted on every exit path, including when the send raises. -/
theorem c1_send_failure_skips_cleanup :
    (process_spotify ⟨0, [⟨"Artist", DlOutcome.ok "song.mp3"⟩], 1000, some 1, "Timed out"⟩).tempDirRemains = true ∧
    (process_spotify ⟨0, [⟨"Artist", DlOutcome.ok "song.mp3"⟩], 1000, some 1, "Timed out"⟩).tempFilesRemain = ["song.mp3"] ∧
    (process_spotify ⟨0, [⟨"Artist", DlOutcome.ok "song.mp3"⟩], 1000, some 1, "Timed out"⟩).zipRemains = true ∧
    Ev.text "Spotify error: Timed out" ∈
      (process_spotify ⟨0, [⟨"Artist", DlOutcome.ok "song.mp3"⟩], 1000, some 1, "Timed out"⟩).events := by
  decide

/-- C9: Spotify host matching (main.py line 54) is case-sensitive — it does
not lowercase the netloc as the Pinterest and YouTube classifiers do — so a
URL with an uppercase Spotify host classifies as unsupported, while
uppercase Pinterest and YouTube hosts still classify to their platforms. -/
theorem c9_spotify_case_sensitive :
    is_spotify_url "https://OPEN.SPOTIFY.COM/playlist/abc" = false ∧
    route "https://OPEN.SPOTIFY.COM/playlist/abc" = Route.unsupported ∧
    route "https://open.spotify.com/playlist/abc" = Route.spotify ∧
    route "https://WWW.PINTEREST.COM/pin/123" = Route.pinterest ∧
    route "https://YOUTU.BE/abc123" = Route.youtube := by
  decide

/-- C4 (counterexample): handle_message applied to the text `"not a url"`
sends no reply at all — zero text replies, not the exactly one the claim
states (main.py line 196 returns silently). -/
theorem c4_counterexample :
    (handle_message "not a url" ⟨0, none, true, true⟩).1 = [] ∧
    (handle_message "not a url" ⟨0, none, true, true⟩).1.length ≠ 1 := by
  decide

/-- C4 (amended): an inbound text that does not begin with `http://` or
`https://` after stripping is ignored silently — classification stops at
the scheme check, nothing is dispatched, and no reply is sent. -/
theorem c4_amended_silent_ignore (text : String) (penv : PinEnv)
    (h : (py_startswith "http://" (pyStrip text) || py_startswith "https://" (pyStrip text)) = false) :
    route text = Route.ignored ∧ handle_message text penv = ([], Dispatch.noDispatch) := by
  have hr : route text = Route.ignored := by
    unfold route
    rw [h]
    rfl
  refine ⟨hr, ?_⟩
  unfold handle_message
  rw [hr]

/-- C4 (witness): the amended claim applied to the text `"not a url"`. -/
theorem c4_witness :
    route "not a url" = Route.ignored ∧
    handle_message "not a url" ⟨0, none, true, true⟩ = ([], Dispatch.noDispatch) :=
  c4_amended_silent_ignore "not a url" ⟨0, none, true, true⟩ (by decide)

/-- C5 (counterexample): two distinct requests — different playlists with
different artists — produce the same archive path `downloads/Playlist.zip`
(main.py lines 135, 140 derive the zip name from the resolved name, not
from a request-unique identifier), so two simultaneous requests can write
the same archive path, contrary to the claim. -/
theorem c5_counterexample :
    zipFileName [⟨"Alice", DlOutcome.ok "a.mp3"⟩, ⟨"Bob", DlOutcome.ok "b.mp3"⟩] =
      zipFileName [⟨"Carol", DlOutcome.ok "c.mp3"⟩, ⟨"Dave", DlOutcome.ok "d.mp3"⟩] ∧
    ([⟨"Alice", DlOutcome.ok "a.mp3"⟩, ⟨"Bob", DlOutcome.ok "b.mp3"⟩] : List Song) ≠
      [⟨"Carol", DlOutcome.ok "c.mp3"⟩, ⟨"Dave", DlOutcome.ok "d.mp3"⟩] := by
  decide

/-- C5 (amended): workspace and output names are derived from URL content
and resolved metadata, not from a request-unique identifier: workspace
directories are distinct exactly when the URL hashes differ (so concurrent
duplicate-URL requests share a workspace), and the archive filename is the
same `Playlist.zip` for any two batches resolving to two or more tracks. -/
theorem c5_naming_not_request_unique :
    (∀ h1 h2 : Int, tempDirName h1 = tempDirName h2 ↔ h1 = h2) ∧
    (∀ s1 s2 : List Song, 2 ≤ s1.length → 2 ≤ s2.length → zipFileName s1 = zipFileName s2) := by
  constructor
  · intro h1 h2
    constructor
    · exact tempDirName_inj
    · intro he
      rw [he]
  · intro s1 s2 hs1 hs2
    rw [zipFileName_playlist hs1, zipFileName_playlist hs2]

/-- C5 (witness): distinct hashes give distinct workspaces, and two
concrete two-track batches share an archive filename. -/
theorem c5_witness :
    tempDirName 0 ≠ tempDirName 1 ∧
    zipFileName [⟨"A", DlOutcome.ok "a.mp3"⟩, ⟨"B", DlOutcome.ok "b.mp3"⟩] =
      zipFileName [⟨"C", DlOutcome.ok "c.mp3"⟩, ⟨"D", DlOutcome.fail⟩] := by
  constructor
  · intro h
    exact absurd ((c5_naming_not_request_unique.1 0 1).mp h) (by decide)
  · exact c5_naming_not_request_unique.2 _ _ (by decide) (by decide)

/-- C6: in the batch loop (main.py lines 142-150) every descriptor is
attempted exactly once whatever the outcomes, and a failing descriptor
leaves the collected workspace contents exactly as if it were absent — a
per-track failure never aborts the batch and never affects siblings. -/
theorem c6_per_track_failure_never_aborts :
    (∀ songs : List Song,
        (batchRun songs).1 = songs.length ∧ (batchRun songs).2 = tempFilesOf songs) ∧
    (∀ (pre post : List Song) (a : String),
        tempFilesOf (pre ++ ⟨a, DlOutcome.fail⟩ :: post) = tempFilesOf (pre ++ post)) := by
  constructor
  · intro songs
    constructor
    · rw [batchRun, batchRun_fst_aux songs 0 []]
      omega
    · rw [batchRun, batchRun_snd_aux songs 0 []]
      rfl
  · intro pre post a
    unfold tempFilesOf
    rw [List.foldl_append, List.foldl_append, List.foldl_cons]
    rfl

/-- C8: for any extraction result, requesting the mp3 format yields exactly
one artifact path whose extension is `mp3` regardless of the source
container extension (main.py lines 85-88 swap the last extension for
`.mp3`), and on any extraction error the boundary catches it, replies with
the error text truncated to 200 characters, and returns no path. -/
theorem c8_audio_mp3 (env : YtEnv) :
    (∀ info, env.extract = Except.ok info →
      download_youtube env "mp3" = (some (rsplitHead (prepare_filename info) ++ ".mp3"), []) ∧
      extOf (rsplitHead (prepare_filename info) ++ ".mp3") = "mp3") ∧
    (∀ e, env.extract = Except.error e →
      download_youtube env "mp3" = (none, [Ev.text ("YouTube download failed: " ++ takeChars 200 e)])) := by
  constructor
  · intro info hinfo
    constructor
    · unfold download_youtube
      rw [hinfo]
      rfl
    · exact extOf_append_mp3 _
  · intro e he
    unfold download_youtube
    rw [he]

/-- C8 (witness): a successful extraction with a dotted title and webm
container yields the mp3-extension artifact, and a failing extraction
yields no path and the truncated error reply. -/
theorem c8_witness :
    download_youtube ⟨Except.ok ⟨"My.Song", "webm"⟩⟩ "mp3" =
      (some (rsplitHead (prepare_filename ⟨"My.Song", "webm"⟩) ++ ".mp3"), []) ∧
    extOf (rsplitHead (prepare_filename ⟨"My.Song", "webm"⟩) ++ ".mp3") = "mp3" ∧
    download_youtube ⟨Except.error "boom"⟩ "mp3" =
      (none, [Ev.text ("YouTube download failed: " ++ takeChars 200 "boom")]) :=
  ⟨((c8_audio_mp3 ⟨Except.ok ⟨"My.Song", "webm"⟩⟩).1 _ rfl).1,
   ((c8_audio_mp3 ⟨Except.ok ⟨"My.Song", "webm"⟩⟩).1 _ rfl).2,
   (c8_audio_mp3 ⟨Except.error "boom"⟩).2 _ rfl⟩

/-- C2 (counterexample): a resolved batch of N = 2 descriptors that both
download successfully (K = 0) but share one file name produces an archive
with a single entry, not N − K = 2: the rename at main.py line 148
overwrites the first file, so the archive does not contain one entry per
successfully downloaded track. -/
theorem c2_counterexample :
    (process_spotify ⟨0, [⟨"A", DlOutcome.ok "x.mp3"⟩, ⟨"B", DlOutcome.ok "x.mp3"⟩], 1000, none, ""⟩).zipProduced
      = some ["x.mp3"] ∧
    (["x.mp3"] : List String).length ≠
      ([⟨"A", DlOutcome.ok "x.mp3"⟩, ⟨"B", DlOutcome.ok "x.mp3"⟩] : List Song).length -
        failCount [⟨"A", DlOutcome.ok "x.mp3"⟩, ⟨"B", DlOutcome.ok "x.mp3"⟩] := by
  decide

/-- C2 (amended): for a resolved batch of N descriptors with K failing, on
the trace where the transport sends succeed, if at least one track succeeds
and the successful tracks have pairwise distinct file names, the produced
archive contains exactly the successful names, N − K entries; if every
track fails, no archive is produced, the terminal failure text is reported
and the workspace is destroyed. -/
theorem c2_batch_archive_entries (env : SpotifyEnv) (hs : env.failSendAt = none)
    (hne : env.songs ≠ []) (hnd : (successNames env.songs).Nodup) :
    (successNames env.songs ≠ [] →
      (process_spotify env).zipProduced = some (successNames env.songs) ∧
      (successNames env.songs).length = env.songs.length - failCount env.songs) ∧
    (successNames env.songs = [] →
      (process_spotify env).zipProduced = none ∧
      Ev.text "Download failed — no files saved." ∈ (process_spotify env).events ∧
      (process_spotify env).tempDirRemains = false ∧
      (process_spotify env).zipRemains = false) := by
  have hlen := successNames_length env.songs
  rw [process_spotify_normal env hs hne, tempFilesOf_eq_of_nodup hnd]
  constructor
  · intro hnz
    have hif : (successNames env.songs).isEmpty = false := by
      cases hσ : successNames env.songs with
      | nil => exact absurd hσ hnz
      | cons a t => rfl
    rw [hif]
    by_cases hz : env.zipBytes < MB48
    · simp only [Bool.false_eq_true, if_false, if_pos hz]
      exact ⟨trivial, by omega⟩
    · simp only [Bool.false_eq_true, if_false, if_neg hz]
      exact ⟨trivial, by omega⟩
  · intro hz
    rw [hz]
    simp

/-- C2 (witness): a three-track batch with one failure, distinct names and
succeeding sends produces the archive with exactly the two successful
entries, 3 − 1 of them. -/
theorem c2_witness :
    (process_spotify ⟨0, [⟨"A", DlOutcome.ok "a.mp3"⟩, ⟨"B", DlOutcome.fail⟩, ⟨"C", DlOutcome.ok "c.mp3"⟩], 1000, none, ""⟩).zipProduced
      = some (successNames [⟨"A", DlOutcome.ok "a.mp3"⟩, ⟨"B", DlOutcome.fail⟩, ⟨"C", DlOutcome.ok "c.mp3"⟩]) ∧
    (successNames [⟨"A", DlOutcome.ok "a.mp3"⟩, ⟨"B", DlOutcome.fail⟩, ⟨"C", DlOutcome.ok "c.mp3"⟩]).length =
      ([⟨"A", DlOutcome.ok "a.mp3"⟩, ⟨"B", DlOutcome.fail⟩, ⟨"C", DlOutcome.ok "c.mp3"⟩] : List Song).length -
        failCount [⟨"A", DlOutcome.ok "a.mp3"⟩, ⟨"B", DlOutcome.fail⟩, ⟨"C", DlOutcome.ok "c.mp3"⟩] :=
  (c2_batch_archive_entries
    ⟨0, [⟨"A", DlOutcome.ok "a.mp3"⟩, ⟨"B", DlOutcome.fail⟩, ⟨"C", DlOutcome.ok "c.mp3"⟩], 1000, none, ""⟩
    rfl (by decide) (by decide)).1 (by decide)

/-- C3: the size gate (main.py lines 162-172).  Whenever the measured size
is at or above 48 MB (`bytes / 2^20 ≥ 48`, i.e. `MB48 ≤ bytes`), the
document send is never invoked on any exit path; on the normal trace
(sends succeed, at least one file collected) the oversize text carrying the
measured size rounded to one decimal place is sent and the archive is
deleted without being sent, while an archive strictly below 48 MB is
approved and sent as a document. -/
theorem c3_size_gate (env : SpotifyEnv) :
    (MB48 ≤ env.zipBytes → ∀ l c, Ev.document l c ∉ (process_spotify env).events) ∧
    (env.failSendAt = none → env.songs ≠ [] → (tempFilesOf env.songs).isEmpty = false →
      (MB48 ≤ env.zipBytes →
        Ev.text (oversizeMsg env.zipBytes) ∈ (process_spotify env).events ∧
        (∃ pre post, oversizeMsg env.zipBytes = pre ++ fmt1MB env.zipBytes ++ post) ∧
        (process_spotify env).zipRemains = false ∧
        (process_spotify env).tempDirRemains = false) ∧
      (env.zipBytes < MB48 →
        Ev.document (tempFilesOf env.songs) (spotCaption env) ∈ (process_spotify env).events)) := by
  constructor
  · intro hge l c
    have hnlt : ¬ env.zipBytes < MB48 := Nat.not_lt.mpr hge
    unfold process_spotify spotifyErrEvents
    by_cases h0 : env.songs.isEmpty <;>
      by_cases hs0 : sendOk env 0 <;>
        by_cases hf : (tempFilesOf env.songs).isEmpty <;>
          by_cases hs1 : sendOk env 1 <;>
            by_cases hs2 : sendOk env 2 <;>
              simp [h0, hs0, hf, hs1, hs2, hnlt, foundEv]
  · intro hs hne hf
    rw [process_spotify_normal env hs hne, hf]
    constructor
    · intro hge
      have hnlt : ¬ env.zipBytes < MB48 := Nat.not_lt.mpr hge
      simp only [Bool.false_eq_true, if_false, if_neg hnlt]
      refine ⟨by simp, ⟨"ZIP is too big (",
        " MB). Telegram limit is ~50 MB.\nTry a smaller playlist or ask for individual songs.",
        rfl⟩, by simp, by simp⟩
    · intro hlt
      simp only [Bool.false_eq_true, if_false, if_pos hlt]
      simp

/-- C3 (witness): an archive of exactly 48 MB (50331648 bytes) is rejected —
no document send happens, the oversize text with the rounded size is sent
and the zip is deleted — while a 1000-byte archive is sent as a document. -/
theorem c3_witness :
    Ev.text (oversizeMsg 50331648) ∈
      (process_spotify ⟨0, [⟨"A", DlOutcome.ok "a.mp3"⟩], 50331648, none, ""⟩).events ∧
    Ev.document ["a.mp3"] (spotCaption ⟨0, [⟨"A", DlOutcome.ok "a.mp3"⟩], 50331648, none, ""⟩) ∉
      (process_spotify ⟨0, [⟨"A", DlOutcome.ok "a.mp3"⟩], 50331648, none, ""⟩).events ∧
    (process_spotify ⟨0, [⟨"A", DlOutcome.ok "a.mp3"⟩], 50331648, none, ""⟩).zipRemains = false ∧
    Ev.document (tempFilesOf [⟨"A", DlOutcome.ok "a.mp3"⟩])
        (spotCaption ⟨0, [⟨"A", DlOutcome.ok "a.mp3"⟩], 1000, none, ""⟩) ∈
      (process_spotify ⟨0, [⟨"A", DlOutcome.ok "a.mp3"⟩], 1000, none, ""⟩).events := by
  refine ⟨?_, ?_, ?_, ?_⟩
  · exact (((c3_size_gate ⟨0, [⟨"A", DlOutcome.ok "a.mp3"⟩], 50331648, none, ""⟩).2
      rfl (by decide) (by decide)).1 (by decide)).1
  · exact (c3_size_gate ⟨0, [⟨"A", DlOutcome.ok "a.mp3"⟩], 50331648, none, ""⟩).1 (by decide)
      ["a.mp3"] (spotCaption ⟨0, [⟨"A", DlOutcome.ok "a.mp3"⟩], 50331648, none, ""⟩)
  · exact (((c3_size_gate ⟨0, [⟨"A", DlOutcome.ok "a.mp3"⟩], 50331648, none, ""⟩).2
      rfl (by decide) (by decide)).1 (by decide)).2.2.1
  · exact ((c3_size_gate ⟨0, [⟨"A", DlOutcome.ok "a.mp3"⟩], 1000, none, ""⟩).2
      rfl (by decide) (by decide)).2 (by decide)

/-- C7: the scrape downloader never propagates an exception — any raise in
its body (main.py lines 94-122) is converted by the except at lines 123-125
into the `None` result; every non-`None` result holds one or two media
artifacts; and the falsy results (`None`, including the zero-media page)
make handle_message reply with the no-media text instead of crashing
(main.py lines 215-216). -/
theorem c7_scrape_never_raises (env : PinEnv) :
    (∀ l, download_pinterest env = some l → l.length = 1 ∨ l.length = 2) ∧
    (∀ e : Unit, pinterestBody env = Except.error e → download_pinterest env = none) ∧
    (download_pinterest env = none →
      pinterest_branch_events env = [Ev.text "Could not download Pinterest media (page changed?)"]) := by
  refine ⟨?_, ?_, ?_⟩
  · intro l hl
    have hb : pinterestBody env = Except.ok (some l) := by
      unfold download_pinterest at hl
      cases hbb : pinterestBody env with
      | ok r =>
        rw [hbb] at hl
        simp only at hl
        rw [hl]
      | error e =>
        rw [hbb] at hl
        simp at hl
    unfold pinterestBody at hb
    repeat' split at hb
    all_goals simp_all
    all_goals rw [← hb]
    all_goals simp
  · intro e he
    unfold download_pinterest
    rw [he]
  · intro h
    unfold pinterest_branch_events
    rw [h]

/-- C7 (witness): a page fetch that raises is converted to the `None`
result and reported as the no-media text. -/
theorem c7_witness :
    download_pinterest ⟨7, none, true, true⟩ = none ∧
    pinterest_branch_events ⟨7, none, true, true⟩ =
      [Ev.text "Could not download Pinterest media (page changed?)"] := by
  have h := c7_scrape_never_raises ⟨7, none, true, true⟩
  have h1 : download_pinterest ⟨7, none, true, true⟩ = none := h.2.1 () rfl
  exact ⟨h1, h.2.2 h1⟩

/-- C10: building the callback payload `"yt|" ++ fmt ++ "|" ++ url`
(main.py lines 221-222) and splitting it on `"|"` with at most two splits
(main.py line 239) recovers exactly the original format and URL, for every
format not containing the delimiter and every URL, even one containing the
delimiter. -/
theorem c10_callback_roundtrip (fmt url : String) (h : '|' ∉ fmt.data) :
    pySplit2 (mkCallback fmt url) = ["yt", fmt, url] ∧
    button_callback_parse (mkCallback fmt url) = some (fmt, url) := by
  have h1 : (mkCallback fmt url).data = ((['y', 't', '|'] ++ fmt.data) ++ ['|']) ++ url.data := by
    unfold mkCallback
    rw [data_append, data_append, data_append]
  have hd : (mkCallback fmt url).data = 'y' :: 't' :: '|' :: (fmt.data ++ '|' :: url.data) := by
    rw [h1, List.append_assoc, List.append_assoc]
    rfl
  have hb1 : breakFirst '|' (mkCallback fmt url).data =
      some (['y', 't'], fmt.data ++ '|' :: url.data) := by
    rw [hd]
    exact breakFirst_append ['y', 't'] (fmt.data ++ '|' :: url.data) (by decide)
  have hb2 : breakFirst '|' (fmt.data ++ '|' :: url.data) = some (fmt.data, url.data) :=
    breakFirst_append fmt.data url.data h
  have hsplit : pySplit2 (mkCallback fmt url) = ["yt", fmt, url] := by
    unfold pySplit2
    rw [hb1]
    simp only [hb2]
  have hpre : isPrefixL "yt|".data (mkCallback fmt url).data = true := by
    rw [hd]
    rfl
  refine ⟨hsplit, ?_⟩
  unfold button_callback_parse
  rw [hpre, hsplit]
  simp

/-- C10 (witness): the round trip at format `"mp3"` and a URL containing
the delimiter. -/
theorem c10_witness :
    pySplit2 (mkCallback "mp3" "https://youtu.be/a|b") = ["yt", "mp3", "https://youtu.be/a|b"] ∧
    button_callback_parse (mkCallback "mp3" "https://youtu.be/a|b") =
      some ("mp3", "https://youtu.be/a|b") :=
  c10_callback_roundtrip "mp3" "https://youtu.be/a|b" (by decide)
